import Mathlib

/-!
Shallow embedding of the Calendly scheduling workflow
(`CalendlyWorkflow.py`): the session state, the four pipeline node
callbacks (`cache_tools`, `classify_question`, `execute_action`,
`generate_response`) and the helper values they manipulate.

Python JSON-compatible values are modelled by `JVal`; Python dictionaries
by association lists with first-match lookup (keys stay unique because
the only dict construction with possibly repeated keys, the tool-map
comprehension, is modelled with update-or-append semantics exactly as a
Python dict comprehension behaves).  External collaborators are
parameters: the MCP client's tool listing is a `List Tool`, the language
model is an optional `LLMClient`, and the standard-library JSON parser
`json.loads` is a `String → Option JVal` argument (`none` = the parse
raised).  Exceptions raised by a tool's `ainvoke` are `Except.error`
carrying `str(e)`; a pipeline step that lets an exception propagate is
modelled as returning `none`.
-/

/-- JSON-compatible Python value (the payloads flowing through the
workflow: plan objects, tool parameters, tool results). -/
inductive JVal where
  | str : String → JVal
  | num : Int → JVal
  | jbool : Bool → JVal
  | null : JVal
  | arr : List JVal → JVal
  | obj : List (String × JVal) → JVal
deriving Repr

/-- A Python dictionary with string keys. -/
abbrev Dict := List (String × JVal)

/-- Python truthiness of a JSON-compatible value (`bool(v)`). -/
def JVal.truthy : JVal → Bool
  | .str s => !s.isEmpty
  | .num n => n != 0
  | .jbool b => b
  | .null => false
  | .arr l => !l.isEmpty
  | .obj l => !l.isEmpty

/-- Python `a or b` on JSON-compatible values. -/
def pyOr (a b : JVal) : JVal := if a.truthy then a else b

/-- `d.get(key)` returning `None` when the key is absent (first match;
Python dict keys are unique). -/
def dGet : Dict → String → Option JVal
  | [], _ => none
  | (k, v) :: d, key => if k = key then some v else dGet d key

/-- `d.get(key)` with Python's `None` default, as a `JVal`. -/
def pyGet (d : Dict) (key : String) : JVal := (dGet d key).getD .null

/-- `d.get(key, default)`. -/
def dictGetD (d : Dict) (key : String) (dflt : JVal) : JVal := (dGet d key).getD dflt

/-- `os.getenv` result injected into the value world (`None` when the
variable is unset). -/
def envJ : Option String → JVal
  | some s => .str s
  | none => .null

/-- Python `repr` of a JSON-compatible value (container cases are only
needed so that `pyStr` below is total). -/
def pyRepr : JVal → String
  | .str s => "\x27" ++ s ++ "\x27"
  | .num n => toString n
  | .jbool true => "True"
  | .jbool false => "False"
  | .null => "None"
  | .arr l => "[" ++ go l ++ "]"
  | .obj l => "\x7b" ++ goO l ++ "\x7d"
where
  go : List JVal → String
    | [] => ""
    | x :: xs => pyRepr x ++ (if xs.isEmpty then "" else ", ") ++ go xs
  goO : List (String × JVal) → String
    | [] => ""
    | (k, v) :: xs =>
        "\x27" ++ k ++ "\x27: " ++ pyRepr v ++ (if xs.isEmpty then "" else ", ") ++ goO xs

/-- Python `str` of a JSON-compatible value (used by the f-strings of
the workflow). -/
def pyStr : JVal → String
  | .str s => s
  | v => pyRepr v

/-- Stands in for the standard-library `json.dumps` (external to the
repository).  No theorem depends on the exact rendering, only on the
fact that a structured result is serialized to some string. -/
def JVal.dumps : JVal → String
  | .str s => "\x22" ++ s ++ "\x22"
  | .num n => toString n
  | .jbool true => "true"
  | .jbool false => "false"
  | .null => "null"
  | .arr l => "[" ++ go l ++ "]"
  | .obj l => "\x7b" ++ goO l ++ "\x7d"
where
  go : List JVal → String
    | [] => ""
    | x :: xs => JVal.dumps x ++ (if xs.isEmpty then "" else ", ") ++ go xs
  goO : List (String × JVal) → String
    | [] => ""
    | (k, v) :: xs =>
        "\x22" ++ k ++ "\x22: " ++ JVal.dumps v ++ (if xs.isEmpty then "" else ", ") ++ goO xs

/-- An MCP tool descriptor: its name and its (possibly raising)
`ainvoke`; `Except.error e` models a raised exception with `str(e) = e`. -/
structure Tool where
  name : String
  ainvoke : JVal → Except String JVal

/-- The language-model client: `ainvoke(prompt).content`. -/
structure LLMClient where
  ainvoke : String → String

/-- The environment variables read by the executor
(`CALENDLY_USER_URI`, `CALENDLY_TIMEZONE`). -/
structure Env where
  CALENDLY_USER_URI : Option String
  CALENDLY_TIMEZONE : Option String

/-- `CalendlyState`: the session state threaded through the pipeline
(fields of the `CalendlyState` TypedDict that the four node callbacks
read or write; `_tool_map` is the internal name-to-descriptor cache). -/
structure CalendlyState where
  user_question : String
  available_tools : List String
  tool_map : List (String × Tool)
  plan : JVal
  calendly_data : String
  mcp_result : Option JVal
  output : String
  error : String
  llm : Option LLMClient

/-- One step of the Python dict comprehension `{t.name: t for t in tool_objs}`:
an existing key keeps its position and gets the new value, a new key is
appended. -/
def dictUpd (d : List (String × Tool)) (k : String) (v : Tool) : List (String × Tool) :=
  if k ∈ d.map Prod.fst then d.map (fun p => if p.1 = k then (k, v) else p)
  else d ++ [(k, v)]

/-- `{t.name: t for t in tool_objs}`. -/
def buildToolMap (ts : List Tool) : List (String × Tool) :=
  ts.foldl (fun d t => dictUpd d t.name t) []

/-- Node 1, `cache_tools`: fetch and cache the tool list unless
`available_tools` is already truthy.  The MCP client's `get_tools()` is
the parameter `getTools`. -/
def cache_tools (getTools : List Tool) (s : CalendlyState) : CalendlyState :=
  if s.available_tools.isEmpty then
    { s with available_tools := getTools.map Tool.name,
             tool_map := buildToolMap getTools }
  else s

/-- The fallback plan `{"action": "get_current_user", "params": {}}`. -/
def defaultPlan : JVal := .obj [("action", .str "get_current_user"), ("params", .obj [])]

/-- The classifier prompt built in `classify_question`. -/
def classifierPrompt (s : CalendlyState) : String :=
  "You are a Calendly assistant. Using the following MCP tools: "
    ++ String.intercalate ", " s.available_tools ++ ".\n\n"
    ++ "Analyze the USER MESSAGE and output ONLY valid JSON with this schema:\n"
    ++ "\x7b\n"
    ++ "  action: string,           // One of the available tool names\n"
    ++ "  params: object            // Parameters required for that tool\n"
    ++ "\x7d\n\n"
    ++ "Available actions and their parameters:\n"
    ++ "- get_current_user: no parameters\n"
    ++ "- list_events: \x7b user_uri?, organization_uri?, status?, max_start_time?, min_start_time?, count? \x7d\n"
    ++ "- get_event: \x7b event_uuid: string \x7d\n"
    ++ "- list_event_invitees: \x7b event_uuid: string, status?, email?, count? \x7d\n"
    ++ "- cancel_event: \x7b event_uuid: string, reason?: string \x7d\n"
    ++ "- list_organization_memberships: \x7b user_uri?, organization_uri?, email?, count? \x7d\n"
    ++ "- send_booking_invitation: \x7b to_email: string, to_name?: string, event_name: string, event_duration: number, available_days: array, booking_link: string, custom_message?: string \x7d\n"
    ++ "- create_and_invite_workflow: \x7b event_name: string, duration: number, availability_days: array, invitee_email: string, invitee_name?: string, event_description?: string, custom_message?: string \x7d\n"
    ++ "- create_one_off_event_type: \x7b event_name: string, duration: number, availability_days: array, invitee_email: string, invitee_name?: string, event_description?: string, custom_message?: string \x7d\n\n"
    ++ "Rules:\n"
    ++ "- Choose the most appropriate action based on user intent.\n"
    ++ "- NEVER wrap objects in strings; output real JSON.\n"
    ++ "- If dates are mentioned, convert them to ISO 8601 format (YYYY-MM-DDTHH:MM:SSZ).\n"
    ++ "- For list operations, default count to 20 if not specified.\n"

/-- The model's reply content in `classify_question`:
`llm.ainvoke(prompt + f"\nUSER MESSAGE:\n{user_question}\n").content`. -/
def classifierContent (s : CalendlyState) (llm : LLMClient) : String :=
  llm.ainvoke (classifierPrompt s ++ "\nUSER MESSAGE:\n" ++ s.user_question ++ "\n")

/-- Node 2, `classify_question`: with no LLM the plan is the fixed
default; otherwise the model reply is parsed with `json.loads`
(parameter `jsonLoads`; `none` models a parse exception) and a parse
failure also falls back to the default plan. -/
def classify_question (jsonLoads : String → Option JVal) (s : CalendlyState) : CalendlyState :=
  match s.llm with
  | none => { s with plan := defaultPlan }
  | some llm => { s with plan := (jsonLoads (classifierContent s llm)).getD defaultPlan }

/-- `raw = params or {}` followed by the requirement that `raw` support
`.get`: a truthy non-dict `params` makes the first `raw.get` raise
(`none`); a falsy `params` is replaced by the empty dict. -/
def pyRawDict (params : JVal) : Option Dict :=
  if params.truthy then
    match params with
    | .obj d => some d
    | _ => none
  else some []

/-- The synthesized date-range descriptor
(`days = raw.get("availability_days") or []` and the `date_setting`
dict literal).  `none` models the `TypeError`/`KeyError` raised when a
truthy `availability_days` is neither a list nor a string (Python
strings are indexable, `s[0]`/`s[-1]` being one-character strings). -/
def buildDateSetting (raw : Dict) : Option Dict :=
  let days := pyOr (pyGet raw "availability_days") (.arr [])
  if days.truthy then
    match days with
    | .arr l =>
        some [("type", .str "date_range"),
              ("start_date", l.head?.getD .null),
              ("end_date", if l.length > 1 then l.getLast?.getD .null else l.head?.getD .null)]
    | .str s =>
        some [("type", .str "date_range"),
              ("start_date", .str (s.take 1)),
              ("end_date", if s.length > 1 then .str (s.takeRight 1) else .str (s.take 1))]
    | _ => none
  else
    some [("type", .str "date_range"), ("start_date", .null), ("end_date", .null)]

/-- The `date_setting` chosen by the executor: the raw one when it is a
truthy dict, the synthesized one otherwise. -/
def dateSettingOf (raw : Dict) : Option JVal :=
  match dGet raw "date_setting" with
  | some (.obj l) => if l.isEmpty then (buildDateSetting raw).map .obj else some (.obj l)
  | _ => (buildDateSetting raw).map .obj

/-- The synthesized `location` dict literal of the executor. -/
def buildLocation (raw : Dict) : Dict :=
  [("kind", pyOr (pyGet raw "location_kind") (.str "physical")),
   ("location", pyOr (pyOr (pyGet raw "location_details") (pyGet raw "event_description")) (.str "")),
   ("additional_info", pyOr (pyGet raw "event_description") (.str ""))]

/-- The `location` chosen by the executor: the raw one when it is a
truthy dict, the synthesized one otherwise. -/
def locationOf (raw : Dict) : JVal :=
  match dGet raw "location" with
  | some (.obj l) => if l.isEmpty then .obj (buildLocation raw) else .obj l
  | _ => .obj (buildLocation raw)

/-- The full `create_one_off_event_type` parameter remapping of
`execute_action` (lines 132-166): raw LLM output mapped into the
Calendly API schema.  `none` models an exception raised while
remapping. -/
def remapOneOff (env : Env) (params : JVal) : Option Dict :=
  match pyRawDict params with
  | none => none
  | some raw =>
    match dateSettingOf raw with
    | none => none
    | some date_setting =>
        some [("name", pyOr (pyGet raw "event_name") (pyGet raw "name")),
              ("host", pyOr (pyGet raw "host") (envJ env.CALENDLY_USER_URI)),
              ("co_hosts", pyOr (pyGet raw "co_hosts") (.arr [])),
              ("duration", pyGet raw "duration"),
              ("timezone", pyOr (pyOr (pyGet raw "timezone") (envJ env.CALENDLY_TIMEZONE)) (.str "UTC")),
              ("date_setting", date_setting),
              ("location", locationOf raw)]

/-- The parameters actually dispatched by `execute_action`: remapped for
`create_one_off_event_type`, the plan's params unmodified otherwise. -/
def dispatchParams (env : Env) (action params : JVal) : Option JVal :=
  match action with
  | .str a => if a = "create_one_off_event_type" then (remapOneOff env params).map .obj else some params
  | _ => some params

/-- First-match lookup in the cached tool map. -/
def lookupT : List (String × Tool) → String → Option Tool
  | [], _ => none
  | (k, v) :: d, key => if k = key then some v else lookupT d key

/-- The successful-lookup result of `tools_map.get(action)`: only a
string action can match a tool-map key (a hashable non-string — number,
bool, `None` — simply matches nothing).  The raising path of `dict.get`
is layered on top in `dictGetTool`. -/
def lookupTool (m : List (String × Tool)) (action : JVal) : Option Tool :=
  match action with
  | .str a => lookupT m a
  | _ => none

/-- Python hashability of a JSON-compatible value: lists and dicts are
unhashable, everything else hashes. -/
def pyHashable : JVal → Bool
  | .arr _ => false
  | .obj _ => false
  | _ => true

/-- `tools_map.get(action)`: raises `TypeError` (`none`) when the
action is unhashable (a list or dict), otherwise returns the lookup
result (`some none` = Python `None`, action not a key). -/
def dictGetTool (m : List (String × Tool)) (action : JVal) : Option (Option Tool) :=
  if pyHashable action then some (lookupTool m action) else none

/-- `f"Tool '{action}' not available"`. -/
def unavailMsg (action : JVal) : String :=
  "Tool " ++ "\x27" ++ pyStr action ++ "\x27 not available"

/-- `_json.dumps(result, indent=2) if not isinstance(result, (str, bytes)) else str(result)`. -/
def serializeResult : JVal → String
  | .str s => s
  | v => JVal.dumps v

/-- The `try` block of `execute_action`: invoke the tool, store the
serialized result on success, store `f"Error: {str(e)}"` and the error
text when the invocation raises. -/
def invokeTool (s : CalendlyState) (tool_obj : Tool) (params : JVal) : CalendlyState :=
  match tool_obj.ainvoke params with
  | .ok result => { s with calendly_data := serializeResult result, mcp_result := some result }
  | .error e => { s with calendly_data := "Error: " ++ e, error := e }

/-- Node 3, `execute_action`.  `none` models an exception escaping the
node (a non-dict plan, a remap failure, or a `TypeError` from
`tools_map.get` on an unhashable plan action — all outside the `try`
block).  `getTools` is the client fetch used when the cached
`_tool_map` is falsy. -/
def execute_action (env : Env) (getTools : List Tool) (s : CalendlyState) :
    Option CalendlyState :=
  match s.plan with
  | .obj p =>
    let action := dictGetD p "action" (.str "get_current_user")
    let params0 := dictGetD p "params" (.obj [])
    match dispatchParams env action params0 with
    | none => none
    | some params =>
      let tools_map := if s.tool_map.isEmpty then buildToolMap getTools else s.tool_map
      match dictGetTool tools_map action with
      | none => none
      | some none => some { s with calendly_data := unavailMsg action }
      | some (some tool_obj) => some (invokeTool s tool_obj params)
  | _ => none

/-- Python `str.strip()` (standard library, external to the
repository): leading and trailing whitespace removed. -/
def pyStrip (s : String) : String :=
  String.mk (((s.toList.dropWhile Char.isWhitespace).reverse.dropWhile Char.isWhitespace).reverse)

/-- The synthesizer prompt built in `generate_response`. -/
def responsePrompt (s : CalendlyState) (action : JVal) : String :=
  "You are a Calendly scheduling assistant. Using ONLY the data below, "
    ++ "provide a helpful and clear answer to the user\x27s question.\n\n"
    ++ "USER QUESTION:\n" ++ s.user_question ++ "\n\n"
    ++ "ACTION PERFORMED:\n" ++ pyStr action ++ "\n\n"
    ++ "CALENDLY DATA (JSON):\n" ++ s.calendly_data ++ "\n\n"
    ++ "Format your response in a user-friendly way:\n"
    ++ "- For events: show date, time, duration, and invitees\n"
    ++ "- For user info: show name, email, and organization\n"
    ++ "- For errors: explain what went wrong and suggest next steps\n"
    ++ "- Be concise but informative\n"

/-- Node 4, `generate_response`: with no LLM the raw
`calendly_data` string is the output verbatim; otherwise the model is
prompted and its stripped reply is the output.  `none` models the
exception of `state["plan"].get` on a non-dict plan. -/
def generate_response (s : CalendlyState) : Option CalendlyState :=
  match s.llm with
  | none => some { s with output := s.calendly_data }
  | some llm =>
    match s.plan with
    | .obj p =>
      some { s with output := pyStrip (llm.ainvoke (responsePrompt s (dictGetD p "action" (.str "get_current_user")))) }
    | _ => none

/-!  Helper lemmas shared by the claim theorems.  -/

theorem dictUpd_keys (d : List (String × Tool)) (k : String) (v : Tool) :
    (dictUpd d k v).map Prod.fst =
      if k ∈ d.map Prod.fst then d.map Prod.fst else d.map Prod.fst ++ [k] := by
  unfold dictUpd
  by_cases h : k ∈ d.map Prod.fst
  · simp only [if_pos h, List.map_map]
    congr 1
    funext p
    by_cases hp : p.1 = k <;> simp [hp, Function.comp]
  · simp [if_neg h]

theorem foldl_dictUpd_keys_mem (ts : List Tool) :
    ∀ (d : List (String × Tool)) (n : String),
      (n ∈ (ts.foldl (fun d t => dictUpd d t.name t) d).map Prod.fst ↔
        n ∈ d.map Prod.fst ∨ n ∈ ts.map Tool.name) := by
  induction ts with
  | nil => simp
  | cons t ts ih =>
    intro d n
    rw [List.foldl_cons, ih, dictUpd_keys]
    by_cases h : t.name ∈ d.map Prod.fst
    · rw [if_pos h]
      simp only [List.map_cons, List.mem_cons]
      constructor
      · rintro (hd | hts)
        · exact Or.inl hd
        · exact Or.inr (Or.inr hts)
      · rintro (hd | rfl | hts)
        · exact Or.inl hd
        · exact Or.inl h
        · exact Or.inr hts
    · rw [if_neg h]
      simp only [List.map_cons, List.mem_cons, List.mem_append, List.mem_singleton]
      tauto

theorem foldl_dictUpd_keys_nodup (ts : List Tool) :
    ∀ d, (d.map Prod.fst).Nodup →
      ((ts.foldl (fun d t => dictUpd d t.name t) d).map Prod.fst).Nodup := by
  induction ts with
  | nil => intro d h; simpa using h
  | cons t ts ih =>
    intro d h
    rw [List.foldl_cons]
    apply ih
    rw [dictUpd_keys]
    by_cases hm : t.name ∈ d.map Prod.fst
    · rwa [if_pos hm]
    · rw [if_neg hm]
      refine List.Nodup.append h (List.nodup_singleton _) ?_
      intro a ha hb
      rw [List.mem_singleton] at hb
      exact hm (hb ▸ ha)

theorem foldl_dictUpd_keys_eq (ts : List Tool) :
    ∀ d, (d.map Prod.fst ++ ts.map Tool.name).Nodup →
      (ts.foldl (fun d t => dictUpd d t.name t) d).map Prod.fst =
        d.map Prod.fst ++ ts.map Tool.name := by
  induction ts with
  | nil => intro d _; simp
  | cons t ts ih =>
    intro d h
    have hm : t.name ∉ d.map Prod.fst := by
      intro hmem
      rw [List.nodup_append] at h
      exact h.2.2 hmem (by simp)
    have hrest : ((dictUpd d t.name t).map Prod.fst ++ ts.map Tool.name).Nodup := by
      rw [dictUpd_keys, if_neg hm, List.append_assoc]
      simpa using h
    rw [List.foldl_cons, ih _ hrest, dictUpd_keys, if_neg hm]
    simp

theorem classify_preserves (jsonLoads : String → Option JVal) (s : CalendlyState) :
    (classify_question jsonLoads s).tool_map = s.tool_map ∧
    (classify_question jsonLoads s).available_tools = s.available_tools := by
  cases hl : s.llm <;> simp [classify_question, hl]

theorem execute_preserves (env : Env) (getTools : List Tool) (s s' : CalendlyState)
    (h : execute_action env getTools s = some s') :
    s'.tool_map = s.tool_map ∧ s'.available_tools = s.available_tools ∧
    s'.llm = s.llm ∧ s'.plan = s.plan ∧ s'.user_question = s.user_question := by
  unfold execute_action at h
  dsimp only at h
  repeat' split at h
  all_goals first
    | exact Option.noConfusion h
    | (injection h with h
       subst h
       first
        | exact ⟨rfl, rfl, rfl, rfl, rfl⟩
        | (unfold invokeTool
           split <;> exact ⟨rfl, rfl, rfl, rfl, rfl⟩))

theorem generate_preserves (s s' : CalendlyState) (h : generate_response s = some s') :
    s'.tool_map = s.tool_map ∧ s'.available_tools = s.available_tools := by
  unfold generate_response at h
  split at h
  · injection h with h
    subst h
    exact ⟨rfl, rfl⟩
  · split at h
    · injection h with h
      subst h
      exact ⟨rfl, rfl⟩
    · exact Option.noConfusion h

theorem dispatchParams_other (env : Env) (action params : JVal)
    (h : action ≠ .str "create_one_off_event_type") :
    dispatchParams env action params = some params := by
  cases action <;> simp_all [dispatchParams]

theorem dictGetTool_of_lookupTool (m : List (String × Tool)) (action : JVal) (t : Tool)
    (h : lookupTool m action = some t) : dictGetTool m action = some (some t) := by
  cases action <;> simp_all [lookupTool, dictGetTool, pyHashable]

theorem error_prefix_ne_empty (e : String) : "Error: " ++ e ≠ "" := by
  intro h
  have hlen := congrArg String.length h
  rw [String.length_append] at hlen
  have h7 : "Error: ".length = 7 := rfl
  have h0 : "".length = 0 := rfl
  rw [h7, h0] at hlen
  omega

/-!  Concrete fixtures used by witnesses and counterexamples.  -/

/-- An environment with neither Calendly variable set. -/
def env0 : Env := ⟨none, none⟩

/-- The raw one-off-event params of the spec's determinism property. -/
def c1raw : Dict :=
  [("event_name", .str "Sync"), ("duration", .num 30),
   ("availability_days", .arr [.str "2024-01-01", .str "2024-01-05"]),
   ("invitee_email", .str "a@b.com")]

/-- A fresh session state (empty caches, no LLM). -/
def freshState : CalendlyState :=
  { user_question := "Who am I?", available_tools := [], tool_map := [],
    plan := .obj [], calendly_data := "", mcp_result := none, output := "",
    error := "", llm := none }

/-- Claim C1: for a one-off-event plan with raw params
`{event_name: "Sync", duration: 30, availability_days:
["2024-01-01","2024-01-05"], invitee_email: "a@b.com"}` (no
`date_setting` or `location` supplied), the executor's remapping
produces params containing `date_setting = {type: "date_range",
start_date: "2024-01-01", end_date: "2024-01-05"}` and a `location`
whose `kind` is `"physical"`, whatever the environment variables are. -/
theorem claim_C1_one_off_remap (env : Env) :
    ∃ d, remapOneOff env (.obj c1raw) = some d ∧
      dGet d "date_setting" = some (.obj [("type", .str "date_range"),
        ("start_date", .str "2024-01-01"), ("end_date", .str "2024-01-05")]) ∧
      ∃ loc, dGet d "location" = some (.obj loc) ∧
        dGet loc "kind" = some (.str "physical") :=
  ⟨_, rfl, rfl, _, rfl, rfl⟩

/-- Witness for C1 at the concrete empty environment. -/
theorem claim_C1_witness :
    ∃ d, remapOneOff env0 (.obj c1raw) = some d ∧
      dGet d "date_setting" = some (.obj [("type", .str "date_range"),
        ("start_date", .str "2024-01-01"), ("end_date", .str "2024-01-05")]) ∧
      ∃ loc, dGet d "location" = some (.obj loc) ∧
        dGet loc "kind" = some (.str "physical") :=
  claim_C1_one_off_remap env0

/-- Claim C3: whenever the model reply fails to parse as JSON, and
likewise whenever no language model is configured (for any question),
the classifier sets the plan to exactly
`{action: "get_current_user", params: {}}`. -/
theorem claim_C3_classifier_fallback (jsonLoads : String → Option JVal)
    (s : CalendlyState)
    (h : s.llm = none ∨ ∃ llm, s.llm = some llm ∧ jsonLoads (classifierContent s llm) = none) :
    (classify_question jsonLoads s).plan = defaultPlan := by
  rcases h with h | ⟨llm, hllm, hparse⟩ <;> simp [classify_question, *]

/-- Witness for C3: a session with no LLM configured. -/
theorem claim_C3_witness :
    freshState.llm = none ∧
    (classify_question (fun _ => none) freshState).plan = defaultPlan :=
  ⟨rfl, claim_C3_classifier_fallback (fun _ => none) freshState (Or.inl rfl)⟩

/-- Claim C5: when `available_tools` is already non-empty, `cache_tools`
returns the state unchanged, its result does not depend on the tool
fetch at all, and running it twice leaves the state as after the first
run. -/
theorem claim_C5_cache_idempotent (getTools getTools2 : List Tool)
    (s : CalendlyState) (h : s.available_tools ≠ []) :
    cache_tools getTools s = s ∧
    cache_tools getTools2 (cache_tools getTools s) = cache_tools getTools s ∧
    cache_tools getTools s = cache_tools getTools2 s := by
  have he : s.available_tools.isEmpty = false := by
    cases hs : s.available_tools
    · exact absurd hs h
    · rfl
  refine ⟨?_, ?_, ?_⟩ <;> simp [cache_tools, he]

/-- A session whose tool cache is already populated. -/
def cachedState : CalendlyState :=
  { freshState with available_tools := ["get_current_user"] }

/-- Witness for C5 at a concrete populated session. -/
theorem claim_C5_witness :
    cachedState.available_tools ≠ [] ∧
    (cache_tools [] cachedState = cachedState ∧
     cache_tools [] (cache_tools [] cachedState) = cache_tools [] cachedState ∧
     cache_tools [] cachedState = cache_tools [] cachedState) :=
  ⟨by decide, claim_C5_cache_idempotent [] [] cachedState (by decide)⟩

/-- Claim C7: when `availability_days` is a one-element list and no raw
`date_setting` is supplied, the synthesized `date_setting` has
`start_date = end_date =` that single entry. -/
theorem claim_C7_single_day (raw : Dict) (d : JVal)
    (hdays : pyGet raw "availability_days" = .arr [d])
    (hnods : dGet raw "date_setting" = none) :
    dateSettingOf raw =
      some (.obj [("type", .str "date_range"), ("start_date", d), ("end_date", d)]) := by
  unfold dateSettingOf
  rw [hnods]
  simp [buildDateSetting, hdays, pyOr, JVal.truthy]

/-- The raw params of C7's single-day example. -/
def raw7 : Dict := [("availability_days", .arr [.str "2024-02-02"])]

/-- Witness for C7 at `availability_days = ["2024-02-02"]`. -/
theorem claim_C7_witness :
    pyGet raw7 "availability_days" = .arr [.str "2024-02-02"] ∧
    dGet raw7 "date_setting" = none ∧
    dateSettingOf raw7 = some (.obj [("type", .str "date_range"),
      ("start_date", .str "2024-02-02"), ("end_date", .str "2024-02-02")]) :=
  ⟨rfl, rfl, claim_C7_single_day raw7 (.str "2024-02-02") rfl rfl⟩

/-- Claim C9: with no language model configured, the synthesizer sets
`output` to exactly the raw `calendly_data` string, leaving everything
else unchanged. -/
theorem claim_C9_no_llm_verbatim (s : CalendlyState) (h : s.llm = none) :
    generate_response s = some { s with output := s.calendly_data } := by
  unfold generate_response
  rw [h]

/-- A session with result data and no LLM. -/
def st9 : CalendlyState := { freshState with calendly_data := "RESULT" }

/-- Witness for C9 at a concrete no-LLM session. -/
theorem claim_C9_witness :
    st9.llm = none ∧
    generate_response st9 = some { st9 with output := st9.calendly_data } :=
  ⟨rfl, claim_C9_no_llm_verbatim st9 rfl⟩

/-- Claim C10: whenever the one-off-event remapping completes, the
params dispatched to the tool have exactly the keys `name`, `host`,
`co_hosts`, `duration`, `timezone`, `date_setting`, `location` (in
particular the classifier-schema fields `invitee_email`,
`invitee_name`, `custom_message` are never forwarded). -/
theorem claim_C10_remap_key_set (env : Env) (params : JVal) (d : Dict)
    (h : remapOneOff env params = some d) :
    d.map Prod.fst = ["name", "host", "co_hosts", "duration", "timezone",
      "date_setting", "location"] ∧
    dGet d "invitee_email" = none ∧ dGet d "invitee_name" = none ∧
    dGet d "custom_message" = none := by
  unfold remapOneOff at h
  split at h
  · exact Option.noConfusion h
  · split at h
    · exact Option.noConfusion h
    · injection h with h
      subst h
      exact ⟨rfl, rfl, rfl, rfl⟩

/-- Raw params for C10's witness. -/
def c10params : JVal :=
  .obj [("availability_days", .arr [.str "2024-03-03"]),
        ("invitee_email", .str "a@b.com")]

/-- The remapped params produced from `c10params` under `env0`. -/
def c10expected : Dict :=
  [("name", .null), ("host", .null), ("co_hosts", .arr []), ("duration", .null),
   ("timezone", .str "UTC"),
   ("date_setting", .obj [("type", .str "date_range"),
     ("start_date", .str "2024-03-03"), ("end_date", .str "2024-03-03")]),
   ("location", .obj [("kind", .str "physical"), ("location", .str ""),
     ("additional_info", .str "")])]

/-- Witness for C10 at concrete raw params carrying `invitee_email`. -/
theorem claim_C10_witness :
    remapOneOff env0 c10params = some c10expected ∧
    (c10expected.map Prod.fst = ["name", "host", "co_hosts", "duration",
      "timezone", "date_setting", "location"] ∧
     dGet c10expected "invitee_email" = none ∧
     dGet c10expected "invitee_name" = none ∧
     dGet c10expected "custom_message" = none) :=
  ⟨rfl, claim_C10_remap_key_set env0 c10params c10expected rfl⟩

/-- `generate_response` with no LLM: raw passthrough. -/
theorem generate_response_none (s : CalendlyState) (h : s.llm = none) :
    generate_response s = some { s with output := s.calendly_data } := by
  unfold generate_response
  rw [h]

/-- `generate_response` with an LLM and a dict-shaped plan. -/
theorem generate_response_some (s : CalendlyState) (llm : LLMClient) (p : Dict)
    (hl : s.llm = some llm) (hp : s.plan = .obj p) :
    generate_response s = some { s with output := pyStrip (llm.ainvoke
      (responsePrompt s (dictGetD p "action" (.str "get_current_user")))) } := by
  unfold generate_response
  rw [hl, hp]

/-- Claim C8: for a plan whose action is anything other than
`create_one_off_event_type`, the executor dispatches the plan's params
to the tool unmodified. -/
theorem claim_C8_params_unmodified (env : Env) (getTools : List Tool)
    (s : CalendlyState) (p : Dict) (t : Tool)
    (hplan : s.plan = .obj p)
    (hact : dictGetD p "action" (.str "get_current_user") ≠ .str "create_one_off_event_type")
    (hlook : lookupTool (if s.tool_map.isEmpty then buildToolMap getTools else s.tool_map)
      (dictGetD p "action" (.str "get_current_user")) = some t) :
    dispatchParams env (dictGetD p "action" (.str "get_current_user"))
        (dictGetD p "params" (.obj [])) = some (dictGetD p "params" (.obj [])) ∧
    execute_action env getTools s =
      some (invokeTool s t (dictGetD p "params" (.obj []))) := by
  have hdisp := dispatchParams_other env _ (dictGetD p "params" (.obj [])) hact
  refine ⟨hdisp, ?_⟩
  simp only [execute_action, hplan, hdisp, dictGetTool_of_lookupTool _ _ _ hlook]

/-- A tool returning a fixed string result. -/
def t8 : Tool := ⟨"get_event", fun _ => .ok (.str "EVENT")⟩

/-- A plan invoking `get_event` with some params. -/
def p8 : Dict := [("action", .str "get_event"), ("params", .obj [("event_uuid", .str "u1")])]

/-- A session about to execute `get_event`. -/
def st8 : CalendlyState :=
  { freshState with plan := .obj p8, tool_map := [("get_event", t8)] }

/-- Witness for C8 at a concrete `get_event` plan. -/
theorem claim_C8_witness :
    st8.plan = .obj p8 ∧
    lookupTool (if st8.tool_map.isEmpty then buildToolMap [] else st8.tool_map)
      (dictGetD p8 "action" (.str "get_current_user")) = some t8 ∧
    (dispatchParams env0 (dictGetD p8 "action" (.str "get_current_user"))
        (dictGetD p8 "params" (.obj [])) = some (dictGetD p8 "params" (.obj [])) ∧
     execute_action env0 [] st8 = some (invokeTool st8 t8 (dictGetD p8 "params" (.obj [])))) :=
  ⟨rfl, rfl, claim_C8_params_unmodified env0 [] st8 p8 t8 rfl
    (by simp [dictGetD, dGet]) rfl⟩

/-- A one-off-event plan whose `availability_days` is a truthy
non-sequence, making the remap raise a `TypeError`. -/
def p4c : Dict :=
  [("action", .str "create_one_off_event_type"),
   ("params", .obj [("availability_days", .num 5)])]

/-- A session holding that plan, with an empty tool map. -/
def st4c : CalendlyState := { freshState with plan := .obj p4c }

/-- A plan whose action is an unhashable value (a list), making
`tools_map.get(action)` itself raise a `TypeError`. -/
def p4u : Dict := [("action", .arr [.num 1]), ("params", .obj [])]

/-- A session holding the unhashable-action plan, with an empty tool
map. -/
def st4u : CalendlyState := { freshState with plan := .obj p4u }

/-- Counterexample to claim C4 as stated, at two concrete inputs whose
action is not a key of the (empty) tool map yet the executor raises
(`none`) instead of storing the unavailable-tool string: a
`create_one_off_event_type` plan whose remap raises before the lookup,
and a plan whose list-valued action makes `tools_map.get` raise even
though the remap step passed its params through untouched. -/
theorem claim_C4_counterexample :
    (st4c.plan = .obj p4c ∧
     dictGetTool (if st4c.tool_map.isEmpty then buildToolMap [] else st4c.tool_map)
       (dictGetD p4c "action" (.str "get_current_user")) = some none ∧
     execute_action env0 [] st4c = none) ∧
    (st4u.plan = .obj p4u ∧
     dispatchParams env0 (dictGetD p4u "action" (.str "get_current_user"))
       (dictGetD p4u "params" (.obj [])) = some (dictGetD p4u "params" (.obj [])) ∧
     (if st4u.tool_map.isEmpty then buildToolMap [] else st4u.tool_map) = [] ∧
     execute_action env0 [] st4u = none) :=
  ⟨⟨rfl, rfl, rfl⟩, ⟨rfl, rfl, rfl, rfl⟩⟩

/-- Claim C4 (amended): for a plan whose action is not a key of the tool
map, provided the pre-dispatch parameter remapping does not raise
(automatic for every action other than `create_one_off_event_type`) and
the action is hashable — not a list or dict, on which `dict.get` raises
`TypeError` — so that `tools_map.get(action)` returns Python `None`,
the executor sets `calendly_data` to the descriptive unavailable-tool
string, changes nothing else, and does not raise. -/
theorem claim_C4_unknown_action (env : Env) (getTools : List Tool)
    (s : CalendlyState) (p : Dict) (prms : JVal)
    (hplan : s.plan = .obj p)
    (hdisp : dispatchParams env (dictGetD p "action" (.str "get_current_user"))
      (dictGetD p "params" (.obj [])) = some prms)
    (hlook : dictGetTool (if s.tool_map.isEmpty then buildToolMap getTools else s.tool_map)
      (dictGetD p "action" (.str "get_current_user")) = some none) :
    execute_action env getTools s =
      some { s with calendly_data := unavailMsg (dictGetD p "action" (.str "get_current_user")) } := by
  simp only [execute_action, hplan, hdisp, hlook]

/-- A plan whose action names no known tool. -/
def p4w : Dict := [("action", .str "nope"), ("params", .obj [])]

/-- A session holding that plan. -/
def st4w : CalendlyState := { freshState with plan := .obj p4w }

/-- Witness for C4 (amended) at a concrete unknown action, including
the exact message text. -/
theorem claim_C4_witness :
    st4w.plan = .obj p4w ∧
    dispatchParams env0 (dictGetD p4w "action" (.str "get_current_user"))
      (dictGetD p4w "params" (.obj [])) = some (.obj []) ∧
    dictGetTool (if st4w.tool_map.isEmpty then buildToolMap [] else st4w.tool_map)
      (dictGetD p4w "action" (.str "get_current_user")) = some none ∧
    execute_action env0 [] st4w =
      some { st4w with calendly_data := unavailMsg (dictGetD p4w "action" (.str "get_current_user")) } ∧
    unavailMsg (dictGetD p4w "action" (.str "get_current_user")) = "Tool \x27nope\x27 not available" :=
  ⟨rfl, rfl, rfl, claim_C4_unknown_action env0 [] st4w p4w (.obj []) rfl rfl rfl, rfl⟩

/-- Claim C2 (amended): when the invoked tool raises with message `e`,
the executor stores `e` in `errorText` (non-empty exactly when the
message is) and `"Error: " ++ e` in `actionResult`, and the remaining
step completes; the final `outputText` is the error string verbatim
(hence non-empty) when no LLM is configured, and the LLM's stripped
reply (possibly empty) otherwise. -/
theorem claim_C2_error_preserved (env : Env) (getTools : List Tool)
    (s : CalendlyState) (p : Dict) (prms : JVal) (t : Tool) (e : String)
    (hplan : s.plan = .obj p)
    (hdisp : dispatchParams env (dictGetD p "action" (.str "get_current_user"))
      (dictGetD p "params" (.obj [])) = some prms)
    (hlook : lookupTool (if s.tool_map.isEmpty then buildToolMap getTools else s.tool_map)
      (dictGetD p "action" (.str "get_current_user")) = some t)
    (hinv : t.ainvoke prms = .error e) :
    ∃ s1, execute_action env getTools s = some s1 ∧
      s1.error = e ∧ s1.calendly_data = "Error: " ++ e ∧
      ∃ s2, generate_response s1 = some s2 ∧
        (s.llm = none → s2.output = "Error: " ++ e ∧ s2.output ≠ "") ∧
        (∀ llm, s.llm = some llm →
          s2.output = pyStrip (llm.ainvoke (responsePrompt s1
            (dictGetD p "action" (.str "get_current_user"))))) := by
  have hE : invokeTool s t prms = { s with calendly_data := "Error: " ++ e, error := e } := by
    unfold invokeTool
    rw [hinv]
  have hexec : execute_action env getTools s =
      some { s with calendly_data := "Error: " ++ e, error := e } := by
    simp only [execute_action, hplan, hdisp, dictGetTool_of_lookupTool _ _ _ hlook, hE]
  refine ⟨_, hexec, rfl, rfl, ?_⟩
  cases hl : s.llm with
  | none =>
    refine ⟨_, generate_response_none _ rfl, ?_, ?_⟩
    · intro
      exact ⟨rfl, error_prefix_ne_empty e⟩
    · intro llm hllm
      exact Option.noConfusion hllm
  | some llm0 =>
    refine ⟨_, generate_response_some _ llm0 p rfl hplan, ?_, ?_⟩
    · intro hnone
      exact Option.noConfusion hnone
    · intro llm hllm
      injection hllm with hllm
      subst hllm
      rfl

/-- A tool raising an exception whose `str` is empty. -/
def tEmptyErr : Tool := ⟨"t", fun _ => .error ""⟩

/-- An LLM whose reply is blank. -/
def blankLLM : LLMClient := ⟨fun _ => " "⟩

/-- A plan invoking the raising tool. -/
def p2c : Dict := [("action", .str "t"), ("params", .obj [])]

/-- A session about to invoke the raising tool, with the blank LLM. -/
def st2c : CalendlyState :=
  { freshState with plan := .obj p2c, available_tools := ["t"],
                    tool_map := [("t", tEmptyErr)], llm := some blankLLM }

/-- Counterexample to claim C2 as stated: the tool raises (with an
empty exception message) yet `errorText` is empty, and the pipeline's
final `outputText` is empty as well (the LLM reply strips to
nothing). -/
theorem claim_C2_counterexample :
    tEmptyErr.ainvoke (.obj []) = .error "" ∧
    ∃ s1 s2, execute_action env0 [] st2c = some s1 ∧ s1.error = "" ∧
      generate_response s1 = some s2 ∧ s2.output = "" :=
  ⟨rfl, _, _, rfl, rfl, rfl, rfl⟩

/-- A tool raising with message `"boom"`. -/
def tBoom : Tool := ⟨"t", fun _ => .error "boom"⟩

/-- A plan invoking the `"boom"` tool. -/
def p2w : Dict := [("action", .str "t"), ("params", .obj [])]

/-- A no-LLM session about to invoke the `"boom"` tool. -/
def st2w : CalendlyState :=
  { freshState with plan := .obj p2w, available_tools := ["t"],
                    tool_map := [("t", tBoom)] }

/-- Witness for C2 (amended) at a concrete raising tool. -/
theorem claim_C2_witness :
    st2w.plan = .obj p2w ∧
    tBoom.ainvoke (.obj []) = .error "boom" ∧
    (∃ s1, execute_action env0 [] st2w = some s1 ∧
      s1.error = "boom" ∧ s1.calendly_data = "Error: " ++ "boom" ∧
      ∃ s2, generate_response s1 = some s2 ∧
        (st2w.llm = none → s2.output = "Error: " ++ "boom" ∧ s2.output ≠ "") ∧
        (∀ llm, st2w.llm = some llm →
          s2.output = pyStrip (llm.ainvoke (responsePrompt s1
            (dictGetD p2w "action" (.str "get_current_user")))))) :=
  ⟨rfl, rfl, claim_C2_error_preserved env0 [] st2w p2w (.obj []) tBoom "boom" rfl rfl rfl rfl⟩

/-- Two distinct tool descriptors sharing one name. -/
def dupTools : List Tool := [⟨"a", fun _ => .ok .null⟩, ⟨"a", fun _ => .ok (.str "x")⟩]

/-- Counterexample to claim C6 as stated: when the client lists two
tools with the same name, `available_tools` keeps both entries while
the tool map has a single key, so the key set is not a 1:1 projection
of the `available_tools` sequence. -/
theorem claim_C6_counterexample :
    freshState.available_tools = [] ∧
    (cache_tools dupTools freshState).available_tools = ["a", "a"] ∧
    (cache_tools dupTools freshState).tool_map.map Prod.fst = ["a"] ∧
    (cache_tools dupTools freshState).tool_map.map Prod.fst ≠
      (cache_tools dupTools freshState).available_tools :=
  ⟨rfl, rfl, rfl, by decide⟩

/-- Claim C6 (amended): after the registry-cache step on a fresh
session, the tool-map keys are duplicate-free and have exactly the same
members as `availableTools`; when the listed tool names are pairwise
distinct the key sequence is exactly `availableTools` (a 1:1
projection); and every later pipeline step leaves both fields
unchanged. -/
theorem claim_C6_toolmap_keys (getTools : List Tool) (s : CalendlyState)
    (h : s.available_tools = []) :
    ((cache_tools getTools s).tool_map.map Prod.fst).Nodup ∧
    (∀ n, n ∈ (cache_tools getTools s).tool_map.map Prod.fst ↔
        n ∈ (cache_tools getTools s).available_tools) ∧
    ((getTools.map Tool.name).Nodup →
        (cache_tools getTools s).tool_map.map Prod.fst =
          (cache_tools getTools s).available_tools) ∧
    (∀ jsonLoads, (classify_question jsonLoads (cache_tools getTools s)).tool_map =
          (cache_tools getTools s).tool_map ∧
        (classify_question jsonLoads (cache_tools getTools s)).available_tools =
          (cache_tools getTools s).available_tools) ∧
    (∀ env getTools2 s2, execute_action env getTools2 (cache_tools getTools s) = some s2 →
        s2.tool_map = (cache_tools getTools s).tool_map ∧
        s2.available_tools = (cache_tools getTools s).available_tools) ∧
    (∀ s3, generate_response (cache_tools getTools s) = some s3 →
        s3.tool_map = (cache_tools getTools s).tool_map ∧
        s3.available_tools = (cache_tools getTools s).available_tools) := by
  have hc : cache_tools getTools s =
      { s with available_tools := getTools.map Tool.name,
               tool_map := buildToolMap getTools } := by
    simp [cache_tools, h]
  rw [hc]
  refine ⟨?_, ?_, ?_, ?_, ?_, ?_⟩
  · exact foldl_dictUpd_keys_nodup getTools [] (by simp)
  · intro n
    have hm := foldl_dictUpd_keys_mem getTools [] n
    simpa [buildToolMap] using hm
  · intro hnd
    have he := foldl_dictUpd_keys_eq getTools [] (by simpa using hnd)
    simpa [buildToolMap] using he
  · intro jsonLoads
    exact classify_preserves jsonLoads _
  · intro env getTools2 s2 h2
    have hp := execute_preserves env getTools2 _ s2 h2
    exact ⟨hp.1, hp.2.1⟩
  · intro s3 h3
    exact generate_preserves _ s3 h3

/-- A single tool named `"a"`. -/
def aTool : Tool := ⟨"a", fun _ => .ok .null⟩

/-- Witness for C6 (amended) at a one-tool listing. -/
theorem claim_C6_witness :
    freshState.available_tools = [] ∧
    ((cache_tools [aTool] freshState).tool_map.map Prod.fst).Nodup ∧
    (cache_tools [aTool] freshState).tool_map.map Prod.fst =
      (cache_tools [aTool] freshState).available_tools :=
  ⟨rfl, (claim_C6_toolmap_keys [aTool] freshState rfl).1,
        (claim_C6_toolmap_keys [aTool] freshState rfl).2.2.1 (by decide)⟩
